import Mathlib

/-!
Verification of the persistent response cache in
`src/local-llm/ollama_llm_run.py` (the CORE selected by the spec).

Shallow embedding conventions:

* The Python module state is a global dict `response_cache` plus a single
  backing file `CACHE_FILE` on disk.  We model both in a `World` structure:
  the dict as an association list with Python-dict semantics (inserting an
  existing key updates it in place, a new key is appended; lookup finds the
  unique binding), and the file as `Option FileContent`, where `none` means
  the file does not exist, `FileContent.valid d` means the file holds a
  pickle of the dict `d` (pickle of a dict round-trips exactly, which is all
  the code relies on), and `FileContent.garbage` means bytes that
  `pickle.load` cannot deserialize.
* Wall-clock and latency values (`time.time()`, `time.perf_counter()`
  differences) are external inputs; they are only stored and compared, never
  computed with, so we model them as `Rat` and pass them as oracle
  arguments.
* `hashlib.md5(...).hexdigest()` is Python standard library, not repository
  code; we keep it as an explicit function argument `hash : String → String`
  applied to the exact pre-hash string the source builds
  (`f"{model}:{prompt}"`, embedded as `combined`).
* I/O failures (write failure in `save_cache`, delete failure in
  `os.remove`) are modelled by Boolean oracles (`writeOk`, `deleteOk`).
  Where the Python code wraps I/O in `try/except Exception` the Lean
  function is total (the operation cannot raise); `clear_cache` has no
  `try/except`, so its model reports whether an exception propagates.
* `print` calls are modelled as an abstract `Event` trace so that
  "reported as a warning" is observable without reproducing message
  formatting.
-/

/-- One cached generation result, as built at lines 162-167 of
`ollama_llm_run.py`: `{'response': …, 'original_time': …, 'timestamp': …,
'model': …}`. -/
structure CacheEntry where
  response : String
  original_time : Rat
  timestamp : Rat
  model : String
deriving DecidableEq, Repr

/-- The in-memory mapping `response_cache`: a Python dict from cache keys to
entries, embedded as an association list in insertion order. -/
abbrev Dict := List (String × CacheEntry)

/-- Lookup in the dict: `response_cache[cache_key]` / `cache_key in
response_cache`. -/
def dictGet (d : Dict) (k : String) : Option CacheEntry :=
  match d with
  | [] => none
  | (k1, v) :: rest => if k1 = k then some v else dictGet rest k

/-- Insertion `response_cache[cache_key] = entry` with Python-dict
semantics: an existing key is updated in place, a new key is appended. -/
def dictInsert (d : Dict) (k : String) (v : CacheEntry) : Dict :=
  match d with
  | [] => [(k, v)]
  | (k1, v1) :: rest =>
      if k1 = k then (k, v) :: rest else (k1, v1) :: dictInsert rest k v

/-- Content of the backing file `CACHE_FILE` when it exists. -/
inductive FileContent where
  /-- A pickle serialization of the dict `d` (what `save_cache` writes). -/
  | valid (d : Dict) : FileContent
  /-- Bytes that `pickle.load` fails to deserialize. -/
  | garbage : FileContent
deriving DecidableEq, Repr

/-- The observable module state: the global `response_cache` and the backing
file (`none` = `os.path.exists(CACHE_FILE)` is false). -/
structure World where
  cache : Dict
  file : Option FileContent
deriving DecidableEq, Repr

/-- Abstract record of the `print` calls the module makes, used to state
which outcome an operation reported without reproducing message text. -/
inductive Event where
  /-- "Loaded n cached responses from disk" (success branch of
  `load_cache`). -/
  | loadedFromDisk (n : Nat) : Event
  /-- "Could not load cache file" (the `except` branch of `load_cache`). -/
  | loadWarn : Event
  /-- "No existing cache file found, starting fresh". -/
  | freshStart : Event
  /-- "Saved n responses to cache file" (success branch of `save_cache`). -/
  | savedToDisk (n : Nat) : Event
  /-- "Could not save cache file" (the `except` branch of `save_cache`). -/
  | saveWarn : Event
  /-- "Cache cleared from memory and disk". -/
  | cacheCleared : Event
  /-- "Cache hit! Retrieved from cache". -/
  | cacheHit : Event
  /-- "API Error" (the `except requests.RequestException` branch). -/
  | apiError : Event
  /-- "Response cached for future use". -/
  | responseCached : Event
deriving DecidableEq, Repr

/-- The pre-hash string `combined = f"{model}:{prompt}"` built by
`get_cache_key` (line 72). -/
def combined (prompt model : String) : String :=
  model ++ ":" ++ prompt

/-- `get_cache_key` (lines 61-73): hash the combined string and return the
hex digest.  `hashlib.md5(...).hexdigest()` is Python standard library, not
repository code, so the digest function is an explicit argument applied to
the exact string the source hashes. -/
def get_cache_key (hash : String → String) (prompt model : String) : String :=
  hash (combined prompt model)

/-- `load_cache` (lines 36-48).  If the file exists, try `pickle.load`:
success replaces `response_cache` with the loaded dict; a deserialization
failure is caught (`except Exception`), a warning is printed and
`response_cache` is set to `{}`.  If the file does not exist, only a
message is printed; the in-memory dict is not touched. -/
def load_cache (w : World) : World × List Event :=
  match w.file with
  | some (FileContent.valid d) =>
      ({ w with cache := d }, [Event.loadedFromDisk d.length])
  | some FileContent.garbage =>
      ({ w with cache := [] }, [Event.loadWarn])
  | none => (w, [Event.freshStart])

/-- `save_cache` (lines 51-58).  On success the whole dict is pickled and
the file overwritten; any exception is caught (`except Exception`) and
reported by a printed warning — the function returns `None` either way and
never touches `response_cache`.  On a failed write we model the on-disk
state as unchanged; no claim inspects the file after a failed save, and the
in-memory claims are insensitive to this choice. -/
def save_cache (writeOk : Bool) (w : World) : World × List Event :=
  if writeOk then
    ({ w with file := some (FileContent.valid w.cache) },
      [Event.savedToDisk w.cache.length])
  else (w, [Event.saveWarn])

/-- Result of `clear_cache`, which (unlike `load_cache`/`save_cache`) has no
`try/except`: `raised = true` means `os.remove` raised and the exception
propagated to the caller; `world` is the state at that point (Python does
not roll back the `response_cache.clear()` that already ran). -/
structure ClearResult where
  world : World
  raised : Bool
  events : List Event
deriving DecidableEq, Repr

/-- `clear_cache` (lines 76-82): `response_cache.clear()`, then if the file
exists `os.remove(CACHE_FILE)` (no exception handler), then print. -/
def clear_cache (deleteOk : Bool) (w : World) : ClearResult :=
  let w1 : World := { w with cache := [] }
  match w1.file with
  | some _ =>
      if deleteOk then
        { world := { w1 with file := none }, raised := false,
          events := [Event.cacheCleared] }
      else
        { world := w1, raised := true, events := [] }
  | none =>
      { world := w1, raised := false, events := [Event.cacheCleared] }

/-- The spec's `get(prompt, model)`: the cache-lookup fragment of
`get_response` (lines 121-125) — compute the key, return the stored entry
if present. -/
def get (hash : String → String) (prompt model : String) (cache : Dict) :
    Option CacheEntry :=
  dictGet cache (get_cache_key hash prompt model)

/-- The spec's `put(prompt, model, response, original_time)`: the caching
block of `get_response` (lines 159-169) — compute the key, build the entry
with `timestamp` set to the current time `now`, insert it (overwriting any
entry under the same key), then immediately `save_cache()`. -/
def put (hash : String → String) (prompt model response : String)
    (original_time now : Rat) (writeOk : Bool) (w : World) :
    World × List Event :=
  let key := get_cache_key hash prompt model
  let entry : CacheEntry :=
    { response := response, original_time := original_time,
      timestamp := now, model := model }
  save_cache writeOk { w with cache := dictInsert w.cache key entry }

/-- Outcome of the remote `requests.post` call to the Ollama endpoint — an
external collaborator.  `success text elapsed` bundles the parsed
`data.get("response", "No response")` text with the measured
`perf_counter` duration; `failure msg` is a `requests.RequestException`
whose string form is `msg`. -/
inductive ApiResult where
  | success (text : String) (elapsed : Rat) : ApiResult
  | failure (msg : String) : ApiResult
deriving DecidableEq, Repr

/-- `get_response` (lines 107-172).  With `use_cache` and a hit, returns
the cached response and the measured `retrievalTime`.  Otherwise it calls
the API: a `requests.RequestException` returns `("Error: " ++ msg, 0.0)`
without touching any state; a success returns the text and its latency,
first installing it via the caching block (`put`) when `use_cache`. -/
def get_response (hash : String → String) (api : ApiResult)
    (now retrievalTime : Rat) (writeOk : Bool) (prompt model : String)
    (use_cache : Bool) (w : World) :
    (String × Rat) × World × List Event :=
  let hit : Option CacheEntry :=
    if use_cache then get hash prompt model w.cache else none
  match hit with
  | some entry => ((entry.response, retrievalTime), w, [Event.cacheHit])
  | none =>
      match api with
      | ApiResult.failure msg =>
          (("Error: " ++ msg, (0 : Rat)), w, [Event.apiError])
      | ApiResult.success text elapsed =>
          if use_cache then
            let r := put hash prompt model text elapsed now writeOk w
            ((text, elapsed), r.1, r.2 ++ [Event.responseCached])
          else ((text, elapsed), w, [])

/-- `get_cache_stats` (lines 85-101), for completeness: entry count, file
existence, file size (abstracted: 0 when absent, `size c` when present),
and the first three keys. -/
def get_cache_stats (size : FileContent → Nat) (w : World) :
    Nat × Bool × Nat × List String :=
  (w.cache.length, w.file.isSome,
    match w.file with
    | some c => size c
    | none => 0,
    (w.cache.map Prod.fst).take 3)

/-- Number of bindings a dict holds under the key `k` ("exactly one entry
under that key" in the spec is `keyCount … = 1`). -/
def keyCount (d : Dict) (k : String) : Nat :=
  (d.filter (fun q => q.1 == k)).length

/-- A concrete entry (the spec's `("Delhi", 0.82)` example scenario), used
as test data for counterexamples and witnesses. -/
def sampleEntry : CacheEntry :=
  { response := "Delhi", original_time := 82/100, timestamp := 0,
    model := "llama3.2:3b" }

/-! Association-list lemmas for the Python-dict embedding. -/

theorem dictGet_dictInsert_self (d : Dict) (k : String) (v : CacheEntry) :
    dictGet (dictInsert d k v) k = some v := by
  induction d with
  | nil => simp [dictInsert, dictGet]
  | cons q rest ih =>
      obtain ⟨k1, v1⟩ := q
      by_cases h : k1 = k
      · simp [dictInsert, dictGet, h]
      · simp [dictInsert, dictGet, h, ih]

theorem length_dictInsert_of_mem (d : Dict) (k : String) (v v0 : CacheEntry)
    (h : dictGet d k = some v0) : (dictInsert d k v).length = d.length := by
  induction d with
  | nil => simp [dictGet] at h
  | cons q rest ih =>
      obtain ⟨k1, v1⟩ := q
      by_cases hk : k1 = k
      · simp [dictInsert, hk]
      · simp only [dictGet, hk, if_false] at h
        simp [dictInsert, hk, ih h]

theorem keyCount_eq_zero (d : Dict) (k : String)
    (h : k ∉ d.map Prod.fst) : keyCount d k = 0 := by
  induction d with
  | nil => rfl
  | cons q rest ih =>
      obtain ⟨k1, v1⟩ := q
      simp only [List.map_cons, List.mem_cons, not_or] at h
      have hne : (k1 == k) = false := by
        simp only [beq_eq_false_iff_ne, ne_eq]
        exact fun hh => h.1 (hh ▸ rfl)
      have h0 := ih h.2
      simp only [keyCount, List.filter_cons, hne, cond_false] at h0 ⊢
      simpa [hne] using h0

theorem keyCount_dictInsert (d : Dict) (k : String) (v : CacheEntry)
    (h : (d.map Prod.fst).Nodup) : keyCount (dictInsert d k v) k = 1 := by
  induction d with
  | nil => simp [dictInsert, keyCount]
  | cons q rest ih =>
      obtain ⟨k1, v1⟩ := q
      simp only [List.map_cons, List.nodup_cons] at h
      by_cases hk : k1 = k
      · have h0 : keyCount rest k = 0 := keyCount_eq_zero rest k (hk ▸ h.1)
        simp [dictInsert, hk, keyCount, List.filter_cons] at h0 ⊢
        exact h0
      · have hne : (k1 == k) = false := by
          simp [beq_iff_eq]; exact hk
        simp [dictInsert, hk, keyCount, List.filter_cons, hne]
        exact ih h.2

theorem notMem_keys_dictInsert (d : Dict) (k k1 : String) (v : CacheEntry)
    (h1 : k1 ∉ d.map Prod.fst) (h2 : k1 ≠ k) :
    k1 ∉ (dictInsert d k v).map Prod.fst := by
  induction d with
  | nil => simpa [dictInsert] using h2
  | cons q rest ih =>
      obtain ⟨k2, v2⟩ := q
      simp only [List.map_cons, List.mem_cons, not_or] at h1
      by_cases hk : k2 = k
      · simp only [dictInsert, hk, if_true, List.map_cons, List.mem_cons, not_or]
        exact ⟨h2, h1.2⟩
      · simp only [dictInsert, hk, if_false, List.map_cons, List.mem_cons, not_or]
        exact ⟨h1.1, ih h1.2⟩

theorem keysNodup_dictInsert (d : Dict) (k : String) (v : CacheEntry)
    (h : (d.map Prod.fst).Nodup) : ((dictInsert d k v).map Prod.fst).Nodup := by
  induction d with
  | nil => simp [dictInsert]
  | cons q rest ih =>
      obtain ⟨k1, v1⟩ := q
      simp only [List.map_cons, List.nodup_cons] at h
      by_cases hk : k1 = k
      · simp only [dictInsert, hk, if_true, List.map_cons, List.nodup_cons]
        exact ⟨hk ▸ h.1, h.2⟩
      · simp only [dictInsert, hk, if_false, List.map_cons, List.nodup_cons]
        exact ⟨notMem_keys_dictInsert rest k k1 v h.1 hk, ih h.2⟩

/-! The separator argument for key discrimination. -/

theorem sep_cons_append_inj (l1 r1 : List Char) :
    ∀ l2 r2 : List Char, ':' ∉ l1 → ':' ∉ l2 →
      l1 ++ ':' :: r1 = l2 ++ ':' :: r2 → l1 = l2 ∧ r1 = r2 := by
  induction l1 with
  | nil =>
      intro l2 r2 h1 h2 h
      cases l2 with
      | nil => simpa using h
      | cons c t =>
          simp only [List.nil_append, List.cons_append, List.cons.injEq] at h
          exact absurd (h.1 ▸ List.mem_cons_self c t) h2
  | cons c t ih =>
      intro l2 r2 h1 h2 h
      cases l2 with
      | nil =>
          simp only [List.nil_append, List.cons_append, List.cons.injEq] at h
          exact absurd (h.1 ▸ List.mem_cons_self c t) h1
      | cons c2 t2 =>
          simp only [List.cons_append, List.cons.injEq] at h
          have h1t : ':' ∉ t := fun hh => h1 (List.mem_cons_of_mem c hh)
          have h2t : ':' ∉ t2 := fun hh => h2 (List.mem_cons_of_mem c2 hh)
          obtain ⟨hl, hr⟩ := ih t2 r2 h1t h2t h.2
          exact ⟨by rw [h.1, hl], hr⟩

theorem combined_inj (p1 m1 p2 m2 : String) (hm1 : ':' ∉ m1.data)
    (hm2 : ':' ∉ m2.data) (h : combined p1 m1 = combined p2 m2) :
    p1 = p2 ∧ m1 = m2 := by
  have hd := String.data_eq_of_eq h
  simp only [combined, String.data_append] at hd
  have hd2 : m1.data ++ ':' :: p1.data = m2.data ++ ':' :: p2.data := by
    simpa using hd
  obtain ⟨hm, hp⟩ := sep_cons_append_inj m1.data p1.data m2.data p2.data hm1 hm2 hd2
  exact ⟨String.ext hp, String.ext hm⟩

/-! Shape lemmas for `put` and `clear_cache`, and an unfolding equation for
`get` (stated by hand because the bare name `get` is ambiguous in tactic
argument position). -/

theorem get_eq (hash : String → String) (prompt model : String) (cache : Dict) :
    get hash prompt model cache = dictGet cache (get_cache_key hash prompt model) :=
  rfl

theorem put_cache_eq (hash : String → String) (p m r : String)
    (t now : Rat) (writeOk : Bool) (w : World) :
    ((put hash p m r t now writeOk w).1).cache =
      dictInsert w.cache (get_cache_key hash p m)
        { response := r, original_time := t, timestamp := now, model := m } := by
  cases writeOk <;> simp [put, save_cache]

theorem clear_cache_true_eq (w : World) :
    clear_cache true w =
      { world := { cache := [], file := none }, raised := false,
        events := [Event.cacheCleared] } := by
  obtain ⟨c, f⟩ := w
  cases f <;> simp [clear_cache]

/-! Claim theorems. -/

/-- C1: Durability round-trip — `save()` followed, on a fresh empty
in-memory cache, by `load()` restores exactly the saved mapping; and after
a successful `put(p, m, r, t)`, a new cache plus `load()` plus `get(p, m)`
returns an entry whose `response` is `r`. -/
theorem cache_durability_roundtrip (hash : String → String)
    (p m r : String) (t now : Rat) (w : World) :
    (load_cache (World.mk [] ((save_cache true w).1).file)).1.cache
        = w.cache ∧
    (get hash p m
        (load_cache (World.mk [] ((put hash p m r t now true w).1).file)).1.cache).map
      CacheEntry.response = some r := by
  refine ⟨by simp [save_cache, load_cache], ?_⟩
  simp [put, save_cache, load_cache, get_eq, dictGet_dictInsert_self]

/-- C2: In-process round-trip — `put(p, m, r, t)` then `get(p, m)` on the
same cache state returns a present entry whose `response` equals `r`
(whether or not the flush to disk succeeded). -/
theorem cache_inprocess_roundtrip (hash : String → String)
    (p m r : String) (t now : Rat) (writeOk : Bool) (w : World) :
    (get hash p m ((put hash p m r t now writeOk w).1).cache).map
      CacheEntry.response = some r := by
  rw [put_cache_eq]
  simp [get_eq, dictGet_dictInsert_self]

/-- C3 counterexample: the separator in `get_cache_key` is `":"`, which is
ambiguous because real model identifiers themselves contain `":"` (the
repository's own demo uses `"llama3.2:3b"`): the distinct pairs
`("x", "llama3.2:3b")` and `("3b:x", "llama3.2")` produce the identical
pre-hash string `"llama3.2:3b:x"`, hence identical cache keys for any
digest function. -/
theorem cache_key_separator_ambiguous_cex :
    (("x", "llama3.2:3b") : String × String) ≠ ("3b:x", "llama3.2") ∧
    combined "x" "llama3.2:3b" = combined "3b:x" "llama3.2" :=
  ⟨by decide, rfl⟩

/-- C3 (amended): when neither model identifier contains the separator
character `':'`, distinct (prompt, model) pairs always yield distinct
pre-hash strings, so `get_cache_key` discriminates them up to collisions
of the digest function. -/
theorem cache_key_discrimination_amended (p1 m1 p2 m2 : String)
    (hm1 : ':' ∉ m1.data) (hm2 : ':' ∉ m2.data)
    (hne : (p1, m1) ≠ (p2, m2)) :
    combined p1 m1 ≠ combined p2 m2 := by
  intro h
  obtain ⟨hp, hm⟩ := combined_inj p1 m1 p2 m2 hm1 hm2 h
  exact hne (by rw [hp, hm])

/-- Witness for the amended C3 at the pair of prompts "a" and "b" against
the colon-free model name "llama3". -/
theorem cache_key_discrimination_amended_witness :
    ':' ∉ ("llama3" : String).data ∧
    (("a", "llama3") : String × String) ≠ ("b", "llama3") ∧
    combined "a" "llama3" ≠ combined "b" "llama3" :=
  ⟨by decide, by decide,
    cache_key_discrimination_amended "a" "llama3" "b" "llama3"
      (by decide) (by decide) (by decide)⟩

/-- C4: Corruption tolerance — when the backing file exists but cannot be
deserialized, `load_cache` leaves the in-memory mapping empty, reports a
warning, and (being total) does not raise. -/
theorem load_corruption_tolerant (w : World)
    (h : w.file = some FileContent.garbage) :
    (load_cache w).1.cache = [] ∧ (load_cache w).2 = [Event.loadWarn] := by
  simp [load_cache, h]

/-- Witness for C4 on a world whose cache is nonempty and whose backing
file holds garbage bytes. -/
theorem load_corruption_tolerant_witness :
    (World.mk [("k", sampleEntry)] (some FileContent.garbage)).file
        = some FileContent.garbage ∧
    ((load_cache (World.mk [("k", sampleEntry)] (some FileContent.garbage))).1.cache = [] ∧
     (load_cache (World.mk [("k", sampleEntry)] (some FileContent.garbage))).2
        = [Event.loadWarn]) :=
  ⟨rfl, load_corruption_tolerant
    (World.mk [("k", sampleEntry)] (some FileContent.garbage)) rfl⟩

/-- C5 counterexample: with a nonempty prior in-memory mapping and no
backing file, `load_cache` leaves the mapping untouched (the `else` branch
only prints), so the mapping is not empty afterwards as the claim states. -/
theorem load_fresh_nonempty_cex :
    (load_cache (World.mk [("k", sampleEntry)] none)).1.cache ≠ [] := by
  simp [load_cache]

/-- C5 (amended): `load()` when the backing file does not exist succeeds
without raising, reports a fresh start, and leaves the in-memory mapping
unchanged — in particular, a cache that was empty before the call is still
empty. -/
theorem load_fresh_start_amended (w : World) (h : w.file = none) :
    (load_cache w).1 = w ∧ (load_cache w).2 = [Event.freshStart] := by
  simp [load_cache, h]

/-- Witness for the amended C5 on the empty world with no backing file. -/
theorem load_fresh_start_amended_witness :
    (World.mk [] none).file = none ∧
    ((load_cache (World.mk [] none)).1 = World.mk [] none ∧
     (load_cache (World.mk [] none)).2 = [Event.freshStart]) :=
  ⟨rfl, load_fresh_start_amended (World.mk [] none) rfl⟩

/-- C6 counterexample: the failure of `save_cache` is not surfaced to the
caller of `put` as a failure result — the value `get_response` returns
after caching "Delhi" is identical whether the flush to disk failed
(`writeOk = false`) or succeeded (`writeOk = true`); only a warning is
printed. -/
theorem save_failure_not_surfaced_cex :
    (get_response id (ApiResult.success "Delhi" 1) 0 0 false "p" "m" true
        (World.mk [] none)).1 =
    (get_response id (ApiResult.success "Delhi" 1) 0 0 true "p" "m" true
        (World.mk [] none)).1 :=
  rfl

/-- C6 (amended): when writing the backing file fails, `save_cache` does
not raise (the exception is caught), the failure is reported only as a
printed warning — no failure result reaches the caller of `save`/`put` —
and the in-memory mapping (indeed the entire state) is exactly what it was
before the call. -/
theorem save_failure_semantics_amended (w : World) :
    (save_cache false w).1 = w ∧ (save_cache false w).2 = [Event.saveWarn] := by
  simp [save_cache]

/-- C7: Clear semantics — after `put(p, m, r, t)` followed by a successful
`clear()`, `get(p, m)` is absent, the backing file no longer exists and no
exception was raised; and `clear()` on an already-empty cache is a no-op on
the mapping that still deletes the backing file whatever it was. -/
theorem clear_semantics (hash : String → String) (p m r : String)
    (t now : Rat) (writeOk : Bool) (w : World) :
    (get hash p m
        (clear_cache true ((put hash p m r t now writeOk w).1)).world.cache = none ∧
     (clear_cache true ((put hash p m r t now writeOk w).1)).world.file = none ∧
     (clear_cache true ((put hash p m r t now writeOk w).1)).raised = false) ∧
    (clear_cache true (World.mk [] w.file)).world = World.mk [] none := by
  simp [clear_cache_true_eq, get_eq, dictGet]

/-- C8 counterexample: when `os.remove` fails during `clear()` the
exception propagates to the caller (there is no `try/except` in
`clear_cache`), contradicting "clear() does not raise to its caller". -/
theorem clear_delete_failure_raises_cex :
    (clear_cache false
        (World.mk [("k", sampleEntry)] (some (FileContent.valid [])))).raised
      = true :=
  rfl

/-- C8 (amended): if deleting the backing file during `clear()` fails, the
exception propagates to `clear()`'s caller, but the in-memory mapping has
already been emptied and stays empty regardless of the deletion outcome. -/
theorem clear_empties_memory_always (deleteOk : Bool) (w : World) :
    (clear_cache deleteOk w).world.cache = [] := by
  obtain ⟨c, f⟩ := w
  cases f <;> cases deleteOk <;> simp [clear_cache]

/-- C9: Idempotent overwrite — `put(p, m, r1, t1)` then `put(p, m, r2, t2)`
(starting from a well-formed cache with no duplicate keys) leaves exactly
one entry under the derived key, that entry's `response` is `r2`, and the
total entry count equals the count after the first `put` alone. -/
theorem put_idempotent_overwrite (hash : String → String)
    (p m r1 r2 : String) (t1 t2 now1 now2 : Rat) (wk1 wk2 : Bool) (w : World)
    (h : (w.cache.map Prod.fst).Nodup) :
    keyCount ((put hash p m r2 t2 now2 wk2
          ((put hash p m r1 t1 now1 wk1 w).1)).1).cache
        (get_cache_key hash p m) = 1 ∧
    (get hash p m ((put hash p m r2 t2 now2 wk2
          ((put hash p m r1 t1 now1 wk1 w).1)).1).cache).map
        CacheEntry.response = some r2 ∧
    ((put hash p m r2 t2 now2 wk2
          ((put hash p m r1 t1 now1 wk1 w).1)).1).cache.length
      = ((put hash p m r1 t1 now1 wk1 w).1).cache.length := by
  simp only [put_cache_eq]
  refine ⟨?_, ?_, ?_⟩
  · exact keyCount_dictInsert _ _ _ (keysNodup_dictInsert _ _ _ h)
  · simp [get_eq, dictGet_dictInsert_self]
  · exact length_dictInsert_of_mem _ _ _ _ (dictGet_dictInsert_self _ _ _)

/-- Witness for C9 starting from the empty cache with the identity digest. -/
theorem put_idempotent_overwrite_witness :
    (((World.mk [] none).cache.map Prod.fst).Nodup) ∧
    (keyCount ((put id "a" "m" "r2" 3 4 true
          ((put id "a" "m" "r1" 1 2 true (World.mk [] none)).1)).1).cache
        (get_cache_key id "a" "m") = 1 ∧
     (get id "a" "m" ((put id "a" "m" "r2" 3 4 true
          ((put id "a" "m" "r1" 1 2 true (World.mk [] none)).1)).1).cache).map
        CacheEntry.response = some "r2" ∧
     ((put id "a" "m" "r2" 3 4 true
          ((put id "a" "m" "r1" 1 2 true (World.mk [] none)).1)).1).cache.length
       = ((put id "a" "m" "r1" 1 2 true (World.mk [] none)).1).cache.length) :=
  ⟨List.nodup_nil,
    put_idempotent_overwrite id "a" "m" "r1" "r2" 1 3 2 4 true true
      (World.mk [] none) List.nodup_nil⟩

/-- C10: Failed remote calls are never cached — on a cache miss with the
transport call failing, `get_response` returns the error text with elapsed
time 0.0 and leaves the entire state (in-memory mapping and backing file)
exactly as it was, performing no insertion and no save. -/
theorem failed_call_not_cached (hash : String → String) (msg : String)
    (now retrievalTime : Rat) (writeOk : Bool) (p m : String) (w : World)
    (h : get hash p m w.cache = none) :
    get_response hash (ApiResult.failure msg) now retrievalTime writeOk p m true w
      = (("Error: " ++ msg, 0), w, [Event.apiError]) := by
  simp [get_response, h]

/-- Witness for C10 on the empty world, where the lookup misses. -/
theorem failed_call_not_cached_witness :
    get id "p" "m" (World.mk [] none).cache = none ∧
    get_response id (ApiResult.failure "boom") 0 0 true "p" "m" true
        (World.mk [] none)
      = (("Error: " ++ "boom", 0), World.mk [] none, [Event.apiError]) :=
  ⟨rfl, failed_call_not_cached id "boom" 0 0 true "p" "m" (World.mk [] none) rfl⟩
